import Mathlib

/-!
Shallow embedding of the experimental VertexModel layer of this repository:
the fit dispatch wrapper in
`google/cloud/aiplatform/experimental/vertex_model/base.py` and the model
(de)serializers in
`google/cloud/aiplatform/experimental/vertex_model/serializers/model.py`.

Python runtime values are embedded as an inductive of the argument kinds the
wrapper distinguishes; side effects (serializer invocations, script file
writes, job construction and job runs, local file writes, object-storage
uploads) are embedded as explicit event traces; exceptions are embedded as
`Except`.  Sources of nondeterminism in the Python code (the wall-clock
timestamp and the temporary-directory name) are passed in as parameters.
-/

set_option maxHeartbeats 1000000

namespace VertexModel

/-- A single apostrophe character, used when rendering Python type names. -/
def quoteMark : String := "\x27"

/-- The runtime type of a Python argument value, as the wrapper classifies it:
the three primitive types it whitelists, the one registered complex type
(pandas DataFrame), and everything else (carrying the Python type name). -/
inductive PyType where
  | int : PyType
  | float : PyType
  | str : PyType
  | dataFrame : PyType
  | other : String → PyType
deriving DecidableEq, Repr

/-- Rendering of a type as Python prints it in the f-string of the
unsupported-type RuntimeError (e.g. `<class int>` with quotes). -/
def PyType.pyName : PyType → String
  | PyType.int => "<class " ++ quoteMark ++ "int" ++ quoteMark ++ ">"
  | PyType.float => "<class " ++ quoteMark ++ "float" ++ quoteMark ++ ">"
  | PyType.str => "<class " ++ quoteMark ++ "str" ++ quoteMark ++ ">"
  | PyType.dataFrame =>
      "<class " ++ quoteMark ++ "pandas.core.frame.DataFrame" ++ quoteMark ++ ">"
  | PyType.other n => "<class " ++ quoteMark ++ n ++ quoteMark ++ ">"

/-- A Python argument value.  Floats are represented as exact rational
surrogates (numerator/denominator) since no claim computes with them;
a DataFrame is represented by its shape and column names; values of any
other type carry only their type name. -/
inductive PyVal where
  | vInt : Int → PyVal
  | vFloat : Int → Int → PyVal
  | vStr : String → PyVal
  | vDataFrame : Nat → List String → PyVal
  | vOther : String → PyVal
deriving DecidableEq, Repr

/-- `type(parameter)` of the embedded value. -/
def PyVal.pyType : PyVal → PyType
  | PyVal.vInt _ => PyType.int
  | PyVal.vFloat _ _ => PyType.float
  | PyVal.vStr _ => PyType.str
  | PyVal.vDataFrame _ _ => PyType.dataFrame
  | PyVal.vOther n => PyType.other n

/-- A `aiplatform.CustomTrainingJob` as constructed by the wrapper: the four
keyword arguments passed at construction in `base.py`. -/
structure TrainingJob where
  display_name : String
  script_path : String
  requirements : List String
  container_uri : String
deriving DecidableEq, Repr

/-- The state of a `VertexModel` instance that the wrapper consults or
mutates: the `training_mode` flag, the class name, the class source text
(obtained reflectively by `source_utils._make_class_source`), the keys of
`_data_serialization_mapping`, and the `_training_job` attribute (absent,
i.e. `none`, until a remote run sets it). -/
structure ModelInstance where
  training_mode : String
  cls_name : String
  cls_source : String
  data_serialization_mapping : List PyType
  training_job : Option TrainingJob
deriving DecidableEq, Repr

/-- `aiplatform.initializer.global_config`: only the staging bucket is
consulted by the code under study. -/
structure GlobalConfig where
  staging_bucket : Option String
deriving DecidableEq, Repr

/-- A Python exception as raised by the embedded code: `RuntimeError`,
`ValueError`, or a google-api `NotFound`, each carrying its message. -/
inductive PyError where
  | runtimeError : String → PyError
  | valueError : String → PyError
  | apiNotFound : String → PyError
deriving DecidableEq, Repr

/-- An observable side effect of the dispatch wrapper: a complex-argument
serializer invocation, the write of the generated training script, the
construction of the training job, and the `run` call with its
`replica_count`. -/
inductive Event where
  | serializeCall : String → String → PyType → Event
  | scriptWrite : String → Event
  | jobCreate : TrainingJob → Event
  | jobRun : Nat → Event
deriving DecidableEq, Repr

/-- `valid_types = [int, float, str] + list(obj._data_serialization_mapping.keys())`. -/
def validTypesList (obj : ModelInstance) : List PyType :=
  [PyType.int, PyType.float, PyType.str] ++ obj.data_serialization_mapping

/-- Python list rendering of the valid-types list inside the RuntimeError
message. -/
def formatTypeList (ts : List PyType) : String :=
  "[" ++ String.intercalate ", " (ts.map PyType.pyName) ++ "]"

/-- The exact message of the unsupported-type RuntimeError raised by the
wrapper, built as the f-string in `base.py` builds it. -/
def unsupportedTypeMessage (ty : PyType) (parameter_name : String)
    (valid : List PyType) : String :=
  ty.pyName ++ (" not supported. parameter_name = " ++ (parameter_name ++
    (". The only supported types are " ++ formatTypeList valid)))

/-- The exact message of the RuntimeError raised when the staging bucket is
unset. -/
def stagingBucketMessage : String :=
  "Staging bucket must be set to run training in cloud mode: `aiplatform.init(staging_bucket=" ++
    quoteMark ++ "gs://my/staging/bucket" ++ quoteMark ++ ")`"

/-- The validation loop of the wrapper: walk the bound arguments in order and
return the first parameter whose runtime type is outside `valid`, with that
type, or `none` if all are valid. -/
def firstInvalidArg (valid : List PyType) :
    List (String × PyVal) → Option (String × PyType)
  | [] => none
  | (parameter_name, parameter) :: rest =>
      if parameter.pyType ∈ valid then firstInvalidArg valid rest
      else some (parameter_name, parameter.pyType)

/-- The outcome of one call to the wrapped fit: the Python return channel
(`Except` for raised exceptions; `Option α` for the returned value, `none`
being Python `None`), the trace of side effects, and the model instance's
state afterwards. -/
structure FitOutcome (α : Type) where
  result : Except PyError (Option α)
  events : List Event
  final : ModelInstance

/-- The run folder for serialized input parameters:
`<staging_bucket>/vertex_model_run_<timestamp>/serialized_input_parameters`. -/
def serializedInputsFolder (staging_bucket timestamp : String) : String :=
  (staging_bucket ++ "/" ++ ("vertex_model_run_" ++ timestamp)) ++
    "/" ++ "serialized_input_parameters"

/-- The `serialized_params` split of the wrapper: the bound arguments whose
type is a key of `_data_serialization_mapping`, in bound order. -/
def serializedParams (obj : ModelInstance)
    (bound_args : List (String × PyVal)) : List (String × PyVal) :=
  bound_args.filter (fun p => p.2.pyType ∈ obj.data_serialization_mapping)

/-- The `pass_through_params` split of the wrapper: the bound arguments of
primitive type, inlined into the generated source. -/
def passThroughParams (obj : ModelInstance)
    (bound_args : List (String × PyVal)) : List (String × PyVal) :=
  bound_args.filter (fun p => p.2.pyType ∉ obj.data_serialization_mapping)

/-- The serializer invocations the wrapper issues, one per complex
argument, in bound order, all under the run's serialized-inputs folder. -/
def serializeEventsOf (obj : ModelInstance)
    (bound_args : List (String × PyVal)) (staging_bucket timestamp : String) :
    List Event :=
  (serializedParams obj bound_args).map
    (fun p => Event.serializeCall
      (serializedInputsFolder staging_bucket timestamp) p.1 p.2.pyType)

/-- The CustomTrainingJob constructed by the wrapper, with its four fixed
keyword arguments; the script path lives in the temporary directory. -/
def generatedJob (tmpdirname : String) : TrainingJob :=
  { display_name := "my_training_job",
    script_path := tmpdirname ++ "/training_script.py",
    requirements := ["pandas>=1.3"],
    container_uri :=
      "us-docker.pkg.dev/vertex-ai/training/pytorch-xla.1-7:latest" }

/-- The outcome of the successful remote path: serialize the complex
arguments, write the generated script, construct the job, store it in
`_training_job`, run it with `replica_count=1`, and return Python `None`. -/
def remoteSuccess (α : Type) (obj : ModelInstance)
    (bound_args : List (String × PyVal))
    (staging_bucket timestamp tmpdirname : String) : FitOutcome α :=
  { result := Except.ok none,
    events := serializeEventsOf obj bound_args staging_bucket timestamp ++
      [Event.scriptWrite (generatedJob tmpdirname).script_path,
       Event.jobCreate (generatedJob tmpdirname),
       Event.jobRun 1],
    final := { obj with training_job := some (generatedJob tmpdirname) } }

/-- The remote branch of the wrapper body (everything after the
`training_mode == "local"` short-circuit in `base.py`): validate the bound
arguments' types, check the staging bucket, then serialize, generate, and
submit via `remoteSuccess`. -/
def remoteDispatch (α : Type) (cfg : GlobalConfig) (obj : ModelInstance)
    (bound_args : List (String × PyVal)) (timestamp : String)
    (tmpdirname : String) : FitOutcome α :=
  match firstInvalidArg (validTypesList obj) bound_args with
  | some (parameter_name, parameter_type) =>
      { result := Except.error (PyError.runtimeError
          (unsupportedTypeMessage parameter_type parameter_name
            (validTypesList obj))),
        events := [],
        final := obj }
  | none =>
      match cfg.staging_bucket with
      | none =>
          { result := Except.error (PyError.runtimeError stagingBucketMessage),
            events := [],
            final := obj }
      | some staging_bucket =>
          remoteSuccess α obj bound_args staging_bucket timestamp tmpdirname

/-- `vertex_fit_function_wrapper` from `base.py`: the function `f` that
replaces the user's fit.  If `training_mode` is exactly `"local"` it calls
the unwrapped method and forwards its result; otherwise it takes the remote
dispatch path.  `method` is the user's unwrapped fit (its Python return
value embedded as `Option α`, `none` being `None`). -/
def vertex_fit_function_wrapper (α : Type) (cfg : GlobalConfig)
    (obj : ModelInstance) (method : List (String × PyVal) → Option α)
    (bound_args : List (String × PyVal)) (timestamp : String)
    (tmpdirname : String) : FitOutcome α :=
  if obj.training_mode = "local" then
    { result := Except.ok (method bound_args), events := [], final := obj }
  else
    remoteDispatch α cfg obj bound_args timestamp tmpdirname

/-- A user-authored torch model: for the claims only its input/output
behaviour matters, embedded as a function on integer tensors coded as
integers. -/
structure TorchModule where
  forward : Int → Int

/-- A `torch.jit.ScriptModule` produced by `torch.jit.script`: the compiled
artifact, carrying the behaviour it computes. -/
structure ScriptModule where
  forward : Int → Int

/-- The torch library contract for scripting (external collaborator, out of
scope per the spec): compiling a module preserves its input/output
behaviour. -/
def torch_jit_script (obj : TorchModule) : ScriptModule :=
  { forward := obj.forward }

/-- The content of a file holding a model artifact: a well-formed saved
module, or corrupt bytes. -/
inductive FileContent where
  | modelFile : ScriptModule → FileContent
  | corruptFile : FileContent

/-- The local filesystem, as a path-indexed association list. -/
abbrev LocalFS : Type := List (String × FileContent)

/-- The object store: contents indexed by (bucket, blob path). -/
abbrev GcsStore : Type := List ((String × String) × FileContent)

/-- Torch library contract for `torch.jit.save`: record the compiled module
at the given path. -/
def torch_jit_save (fs : LocalFS) (m : ScriptModule) (path : String) :
    LocalFS :=
  (path, FileContent.modelFile m) :: fs

/-- The message of the ValueError torch raises when asked to load a path
that does not exist. -/
def torchMissingFileMessage (path : String) : String :=
  "The provided filename " ++ path ++ " does not exist"

/-- The message of the RuntimeError torch raises on a corrupt archive. -/
def torchCorruptFileMessage (path : String) : String :=
  "PytorchStreamReader failed reading zip archive at " ++ path

/-- Torch library contract for `torch.jit.load`: return the module stored at
the path; raise ValueError when the path is absent and RuntimeError when the
content is corrupt. -/
def torch_jit_load (fs : LocalFS) (path : String) :
    Except PyError ScriptModule :=
  match fs.lookup path with
  | some (FileContent.modelFile m) => Except.ok m
  | some FileContent.corruptFile =>
      Except.error (PyError.runtimeError (torchCorruptFileMessage path))
  | none => Except.error (PyError.valueError (torchMissingFileMessage path))

/-- `aiplatform.utils.extract_bucket_and_prefix_from_gcs_path` (SDK glue not
under study, modelled by its documented behaviour): strip a leading
`gs://`, then split at the first slash into bucket and optional blob
prefix. -/
def extract_bucket_and_blob (uri : String) : String × Option String :=
  let rest := if uri.take 5 = "gs://" then uri.drop 5 else uri
  match rest.splitOn "/" with
  | [] => ("", none)
  | [b] => (b, none)
  | b :: parts => (b, some (String.intercalate "/" parts))

/-- An observable storage side effect of the serializers. -/
inductive IoEvent where
  | localWrite : String → IoEvent
  | gcsUpload : String → String → IoEvent
  | gcsDownload : String → String → IoEvent
deriving DecidableEq, Repr

/-- The outcome of `_serialize_local_model`: the returned artifact path and
the filesystem, object store, and I/O trace afterwards. -/
structure SaveOutcome where
  returned : String
  fs : LocalFS
  gcs : GcsStore
  ioEvents : List IoEvent

/-- `_serialize_local_model` from `serializers/model.py`: compile the model
with `torch.jit.script`; if `artifact_uri[0:6] != "gs://"` save it next to
`artifact_uri` under `my_<model_type>_model.pth` and return that path;
otherwise save to a temporary file, upload the file to the bucket and blob
path resolved from `artifact_uri`, and return the resulting `gs://` path. -/
def _serialize_local_model (fs : LocalFS) (gcs : GcsStore)
    (tmpdirname : String) (artifact_uri : String) (obj : TorchModule)
    (model_type : String) : SaveOutcome :=
  let compiled_custom_model := torch_jit_script obj
  if artifact_uri.take 6 ≠ "gs://" then
    let path_to_model := artifact_uri ++ "/my_" ++ model_type ++ "_model.pth"
    { returned := path_to_model,
      fs := torch_jit_save fs compiled_custom_model path_to_model,
      gcs := gcs,
      ioEvents := [IoEvent.localWrite path_to_model] }
  else
    let local_file_name := "my_" ++ model_type ++ "_model.pth"
    let path_to_model := tmpdirname ++ "/" ++ local_file_name
    let fsAfterSave := torch_jit_save fs compiled_custom_model path_to_model
    let bucketAndPre := extract_bucket_and_blob artifact_uri
    let gcs_bucket := bucketAndPre.1
    let blob_path :=
      match bucketAndPre.2 with
      | some pre => pre ++ "/" ++ local_file_name
      | none => local_file_name
    let gcsAfter := ((gcs_bucket, blob_path),
      FileContent.modelFile compiled_custom_model) :: gcs
    let gcs_path := "gs://" ++ (gcs_bucket ++ "/" ++ blob_path)
    { returned := gcs_path,
      fs := fsAfterSave,
      gcs := gcsAfter,
      ioEvents := [IoEvent.localWrite path_to_model,
        IoEvent.gcsUpload gcs_bucket blob_path] }

/-- The message of the wrapping RuntimeError in `_deserialize_remote_model`. -/
def readProblemMessage (artifact_uri : String) (errText : String) : String :=
  "There was a problem reading the model at " ++ quoteMark ++ artifact_uri ++
    quoteMark ++ ": " ++ errText

/-- How Python renders an exception when formatted into the wrapping
message. -/
def PyError.text : PyError → String
  | PyError.runtimeError m => m
  | PyError.valueError m => m
  | PyError.apiNotFound m => m

/-- `_deserialize_remote_model` from `serializers/model.py`: if
`artifact_uri[0:6] != "gs://"` load directly with `torch.jit.load`;
otherwise resolve bucket and blob, download the blob to a temporary file
(a google-api NotFound on a missing blob propagates, since the
`except` clause catches only ValueError and RuntimeError), load the
temporary file, and wrap a ValueError or RuntimeError from the load into a
RuntimeError naming the attempted location. -/
def _deserialize_remote_model (fs : LocalFS) (gcs : GcsStore)
    (tmpdirname : String) (artifact_uri : String) :
    Except PyError ScriptModule :=
  if artifact_uri.take 6 ≠ "gs://" then
    torch_jit_load fs artifact_uri
  else
    let bucketAndBlob := extract_bucket_and_blob artifact_uri
    let gcs_bucket := bucketAndBlob.1
    let gcs_blob :=
      match bucketAndBlob.2 with
      | some b => b
      | none => ""
    match gcs.lookup (gcs_bucket, gcs_blob) with
    | none =>
        Except.error (PyError.apiNotFound
          ("404 blob " ++ gcs_blob ++ " not found in bucket " ++ gcs_bucket))
    | some content =>
        let dest_file := tmpdirname ++ "/deserialized_model.pt"
        match torch_jit_load [(dest_file, content)] dest_file with
        | Except.ok m => Except.ok m
        | Except.error err =>
            Except.error (PyError.runtimeError
              (readProblemMessage artifact_uri err.text))

/-- The registry keys of `VertexModel._data_serialization_mapping`: the one
registered complex type, pandas DataFrame. -/
def vertexModelMapping : List PyType := [PyType.dataFrame]

/-- A concrete model instance in the given mode, as the test's
`LinearRegression` subclass: the default registry, no job yet. -/
def mkInstance (mode : String) : ModelInstance :=
  { training_mode := mode,
    cls_name := "LinearRegression",
    cls_source := "class LinearRegression(base.VertexModel, torch.nn.Module): ...",
    data_serialization_mapping := vertexModelMapping,
    training_job := none }

/-- The test's global config: staging bucket configured. -/
def cfgWithBucket : GlobalConfig :=
  { staging_bucket := some "gs://test-staging-bucket" }

/-- A global config with no staging bucket configured. -/
def cfgNoBucket : GlobalConfig := { staging_bucket := none }

/-- The bound arguments of the test scenario's fit call: a 100-row,
3-column DataFrame, the target column name, `epochs=1`,
`learning_rate=0.1`. -/
def fitArgs : List (String × PyVal) :=
  [("data", PyVal.vDataFrame 100 ["feat_1", "feat_2", "target"]),
   ("target_column", PyVal.vStr "target"),
   ("epochs", PyVal.vInt 1),
   ("learning_rate", PyVal.vFloat 1 10)]

/-- Bound arguments containing a value of unsupported runtime type. -/
def badArgs : List (String × PyVal) :=
  [("data", PyVal.vOther "list"), ("epochs", PyVal.vInt 1)]

/-- A concrete user fit method for witnesses: returns the Python value 7. -/
def demoMethod : List (String × PyVal) → Option Nat := fun _ => some 7

/-- A concrete torch module for witnesses. -/
def demoModule : TorchModule := { forward := fun x => x + 1 }

/-! ## Helper lemmas -/

theorem firstInvalidArg_eq_none_iff (valid : List PyType)
    (args : List (String × PyVal)) :
    firstInvalidArg valid args = none ↔ ∀ p ∈ args, p.2.pyType ∈ valid := by
  induction args with
  | nil => simp [firstInvalidArg]
  | cons hd tl ih =>
      obtain ⟨n, v⟩ := hd
      by_cases hv : v.pyType ∈ valid
      · simp [firstInvalidArg, hv, ih]
      · simp [firstInvalidArg, hv]

theorem firstInvalidArg_spec (valid : List PyType)
    (args : List (String × PyVal)) (n : String) (t : PyType)
    (h : firstInvalidArg valid args = some (n, t)) :
    (∃ v, (n, v) ∈ args ∧ v.pyType = t) ∧ t ∉ valid := by
  induction args with
  | nil => simp [firstInvalidArg] at h
  | cons hd tl ih =>
      obtain ⟨m, v⟩ := hd
      by_cases hv : v.pyType ∈ valid
      · rw [firstInvalidArg, if_pos hv] at h
        obtain ⟨⟨w, hw, hwt⟩, ht⟩ := ih h
        exact ⟨⟨w, List.mem_cons_of_mem _ hw, hwt⟩, ht⟩
      · rw [firstInvalidArg, if_neg hv] at h
        obtain ⟨hm, ht⟩ := Prod.mk.injEq .. ▸ Option.some.injEq .. ▸ h
        subst hm; subst ht
        exact ⟨⟨v, List.mem_cons_self _ _, rfl⟩, hv⟩

theorem remoteDispatch_cases (α : Type) (cfg : GlobalConfig)
    (obj : ModelInstance) (bound_args : List (String × PyVal))
    (ts tmp : String) :
    (∃ e, remoteDispatch α cfg obj bound_args ts tmp =
        { result := Except.error e, events := [], final := obj }) ∨
    (∃ b, cfg.staging_bucket = some b ∧
      remoteDispatch α cfg obj bound_args ts tmp =
        remoteSuccess α obj bound_args b ts tmp) := by
  unfold remoteDispatch
  cases firstInvalidArg (validTypesList obj) bound_args with
  | some nt =>
      obtain ⟨n, t⟩ := nt
      exact Or.inl ⟨_, rfl⟩
  | none =>
      cases hb : cfg.staging_bucket with
      | none => exact Or.inl ⟨_, rfl⟩
      | some b => exact Or.inr ⟨b, rfl, rfl⟩

/-! ## Claim theorems -/

/-- Claim C4: for every model instance whose `training_mode` equals
`"local"` and every argument list, the wrapped fit returns exactly the
result of the unwrapped user method, performs no serialization, storage, or
job-submission operation (empty event trace), and leaves the instance
unchanged. -/
theorem claim4_local_mode_identity (α : Type) (cfg : GlobalConfig)
    (obj : ModelInstance) (method : List (String × PyVal) → Option α)
    (bound_args : List (String × PyVal)) (ts tmp : String)
    (hmode : obj.training_mode = "local") :
    vertex_fit_function_wrapper α cfg obj method bound_args ts tmp =
      { result := Except.ok (method bound_args), events := [],
        final := obj } := by
  rw [vertex_fit_function_wrapper, if_pos hmode]

theorem claim4_witness :
    (mkInstance "local").training_mode = "local" ∧
    vertex_fit_function_wrapper Nat cfgWithBucket (mkInstance "local")
        demoMethod fitArgs "2021-07-01-12:00:00.000" "/tmp/x" =
      { result := Except.ok (demoMethod fitArgs), events := [],
        final := mkInstance "local" } :=
  ⟨rfl, claim4_local_mode_identity Nat cfgWithBucket (mkInstance "local")
    demoMethod fitArgs "2021-07-01-12:00:00.000" "/tmp/x" rfl⟩

/-- Claim C9: whenever the wrapped fit raises (unsupported argument type or
missing staging bucket), the event trace is empty (no serializer invoked,
no script file written, no job constructed or run) and the model instance
is returned unchanged, so `_training_job` is neither created nor
modified. -/
theorem claim9_error_path_leaves_state_unchanged (α : Type)
    (cfg : GlobalConfig) (obj : ModelInstance)
    (method : List (String × PyVal) → Option α)
    (bound_args : List (String × PyVal)) (ts tmp : String) (e : PyError)
    (herr : (vertex_fit_function_wrapper α cfg obj method bound_args ts
        tmp).result = Except.error e) :
    (vertex_fit_function_wrapper α cfg obj method bound_args ts tmp).events
        = [] ∧
    (vertex_fit_function_wrapper α cfg obj method bound_args ts tmp).final
        = obj := by
  by_cases hmode : obj.training_mode = "local"
  · rw [vertex_fit_function_wrapper, if_pos hmode] at herr
    exact absurd herr (by simp)
  · rw [vertex_fit_function_wrapper, if_neg hmode] at herr ⊢
    rcases remoteDispatch_cases α cfg obj bound_args ts tmp with
      ⟨e', heq⟩ | ⟨b, _, heq⟩
    · rw [heq]
      exact ⟨rfl, rfl⟩
    · rw [heq] at herr
      exact absurd herr (by simp [remoteSuccess])

theorem claim9_witness :
    (vertex_fit_function_wrapper Nat cfgWithBucket (mkInstance "cloud")
        demoMethod badArgs "t" "/tmp/x").result =
      Except.error (PyError.runtimeError
        (unsupportedTypeMessage (PyType.other "list") "data"
          (validTypesList (mkInstance "cloud")))) ∧
    (vertex_fit_function_wrapper Nat cfgWithBucket (mkInstance "cloud")
        demoMethod badArgs "t" "/tmp/x").events = [] ∧
    (vertex_fit_function_wrapper Nat cfgWithBucket (mkInstance "cloud")
        demoMethod badArgs "t" "/tmp/x").final = mkInstance "cloud" := by
  have h := claim9_error_path_leaves_state_unchanged Nat cfgWithBucket
    (mkInstance "cloud") demoMethod badArgs "t" "/tmp/x"
    (PyError.runtimeError
      (unsupportedTypeMessage (PyType.other "list") "data"
        (validTypesList (mkInstance "cloud")))) rfl
  exact ⟨rfl, h.1, h.2⟩

/-- Claim C10: on the remote-dispatch path (`training_mode ≠ "local"`) the
wrapped fit never returns a value other than Python `None`, regardless of
what the user's method would return; with the same instance switched to
`"local"`, the user method's return value is forwarded. -/
theorem claim10_remote_path_returns_none (α : Type) (cfg : GlobalConfig)
    (obj : ModelInstance) (method : List (String × PyVal) → Option α)
    (bound_args : List (String × PyVal)) (ts tmp : String)
    (hmode : obj.training_mode ≠ "local") :
    (∀ r : α, (vertex_fit_function_wrapper α cfg obj method bound_args ts
        tmp).result ≠ Except.ok (some r)) ∧
    (vertex_fit_function_wrapper α cfg
        { obj with training_mode := "local" } method bound_args ts
        tmp).result = Except.ok (method bound_args) := by
  constructor
  · intro r
    rw [vertex_fit_function_wrapper, if_neg hmode]
    rcases remoteDispatch_cases α cfg obj bound_args ts tmp with
      ⟨e', heq⟩ | ⟨b, _, heq⟩
    · rw [heq]; simp
    · rw [heq]; simp [remoteSuccess]
  · rw [vertex_fit_function_wrapper, if_pos rfl]

theorem claim10_witness :
    (mkInstance "cloud").training_mode ≠ "local" ∧
    (vertex_fit_function_wrapper Nat cfgWithBucket (mkInstance "cloud")
        demoMethod fitArgs "t" "/tmp/x").result ≠ Except.ok (some 7) ∧
    (vertex_fit_function_wrapper Nat cfgWithBucket
        { mkInstance "cloud" with training_mode := "local" } demoMethod
        fitArgs "t" "/tmp/x").result = Except.ok (demoMethod fitArgs) := by
  have h := claim10_remote_path_returns_none Nat cfgWithBucket
    (mkInstance "cloud") demoMethod fitArgs "t" "/tmp/x" (by decide)
  exact ⟨by decide, h.1 7, h.2⟩

/-- Claim C1: in remote mode, if any bound argument's runtime type is
outside {int, float, str} plus the registered complex types, the wrapped
fit raises a RuntimeError whose message names the offending parameter and
its type, with an empty event trace: no serializer invocation, no script
write, no job construction or run happens. -/
theorem claim1_invalid_type_raises_before_side_effects (α : Type)
    (cfg : GlobalConfig) (obj : ModelInstance)
    (method : List (String × PyVal) → Option α)
    (bound_args : List (String × PyVal)) (ts tmp : String)
    (hmode : obj.training_mode ≠ "local")
    (hbad : ∃ p ∈ bound_args, p.2.pyType ∉ validTypesList obj) :
    ∃ pname pty,
      (∃ v, (pname, v) ∈ bound_args ∧ v.pyType = pty) ∧
      pty ∉ validTypesList obj ∧
      (vertex_fit_function_wrapper α cfg obj method bound_args ts
          tmp).result = Except.error (PyError.runtimeError
        (unsupportedTypeMessage pty pname (validTypesList obj))) ∧
      (∃ a b, unsupportedTypeMessage pty pname (validTypesList obj) =
        a ++ (pname ++ b)) ∧
      (∃ a b, unsupportedTypeMessage pty pname (validTypesList obj) =
        a ++ (pty.pyName ++ b)) ∧
      (vertex_fit_function_wrapper α cfg obj method bound_args ts
          tmp).events = [] := by
  cases hfia : firstInvalidArg (validTypesList obj) bound_args with
  | none =>
      exfalso
      obtain ⟨p, hp, hbadp⟩ := hbad
      exact hbadp ((firstInvalidArg_eq_none_iff _ _).mp hfia p hp)
  | some nt =>
      obtain ⟨pname, pty⟩ := nt
      obtain ⟨hmem, hnv⟩ := firstInvalidArg_spec _ _ _ _ hfia
      refine ⟨pname, pty, hmem, hnv, ?_, ?_, ?_, ?_⟩
      · rw [vertex_fit_function_wrapper, if_neg hmode]
        unfold remoteDispatch
        rw [hfia]
      · refine ⟨pty.pyName ++ " not supported. parameter_name = ",
          ". The only supported types are " ++
            formatTypeList (validTypesList obj), ?_⟩
        rw [unsupportedTypeMessage, String.append_assoc]
      · refine ⟨"", " not supported. parameter_name = " ++ (pname ++
          (". The only supported types are " ++
            formatTypeList (validTypesList obj))), ?_⟩
        rw [unsupportedTypeMessage, String.empty_append]
      · rw [vertex_fit_function_wrapper, if_neg hmode]
        unfold remoteDispatch
        rw [hfia]

theorem claim1_witness :
    ((mkInstance "cloud").training_mode ≠ "local" ∧
      ∃ p ∈ badArgs, p.2.pyType ∉ validTypesList (mkInstance "cloud")) ∧
    (∃ pname pty,
      (∃ v, (pname, v) ∈ badArgs ∧ v.pyType = pty) ∧
      pty ∉ validTypesList (mkInstance "cloud") ∧
      (vertex_fit_function_wrapper Nat cfgWithBucket (mkInstance "cloud")
          demoMethod badArgs "t" "/tmp/x").result =
        Except.error (PyError.runtimeError
          (unsupportedTypeMessage pty pname
            (validTypesList (mkInstance "cloud")))) ∧
      (∃ a b, unsupportedTypeMessage pty pname
          (validTypesList (mkInstance "cloud")) = a ++ (pname ++ b)) ∧
      (∃ a b, unsupportedTypeMessage pty pname
          (validTypesList (mkInstance "cloud")) = a ++ (pty.pyName ++ b)) ∧
      (vertex_fit_function_wrapper Nat cfgWithBucket (mkInstance "cloud")
          demoMethod badArgs "t" "/tmp/x").events = []) :=
  ⟨⟨by decide, by decide⟩,
    claim1_invalid_type_raises_before_side_effects Nat cfgWithBucket
      (mkInstance "cloud") demoMethod badArgs "t" "/tmp/x" (by decide)
      (by decide)⟩

/-- Claim C2: in remote mode with all argument types valid, if the
configured staging bucket is unset the wrapped fit raises the RuntimeError
instructing the user to configure it, with an empty event trace — in
particular before any serializer is invoked. -/
theorem claim2_missing_bucket_raises_before_serialization (α : Type)
    (cfg : GlobalConfig) (obj : ModelInstance)
    (method : List (String × PyVal) → Option α)
    (bound_args : List (String × PyVal)) (ts tmp : String)
    (hmode : obj.training_mode ≠ "local")
    (hvalid : ∀ p ∈ bound_args, p.2.pyType ∈ validTypesList obj)
    (hbucket : cfg.staging_bucket = none) :
    (vertex_fit_function_wrapper α cfg obj method bound_args ts tmp).result
        = Except.error (PyError.runtimeError stagingBucketMessage) ∧
    (vertex_fit_function_wrapper α cfg obj method bound_args ts tmp).events
        = [] := by
  have hfia : firstInvalidArg (validTypesList obj) bound_args = none :=
    (firstInvalidArg_eq_none_iff _ _).mpr hvalid
  constructor <;>
    · rw [vertex_fit_function_wrapper, if_neg hmode]
      unfold remoteDispatch
      rw [hfia, hbucket]

theorem claim2_witness :
    ((mkInstance "cloud").training_mode ≠ "local" ∧
      (∀ p ∈ fitArgs, p.2.pyType ∈ validTypesList (mkInstance "cloud")) ∧
      cfgNoBucket.staging_bucket = none) ∧
    (vertex_fit_function_wrapper Nat cfgNoBucket (mkInstance "cloud")
        demoMethod fitArgs "t" "/tmp/x").result =
      Except.error (PyError.runtimeError stagingBucketMessage) ∧
    (vertex_fit_function_wrapper Nat cfgNoBucket (mkInstance "cloud")
        demoMethod fitArgs "t" "/tmp/x").events = [] :=
  ⟨⟨by decide, by decide, rfl⟩,
    claim2_missing_bucket_raises_before_serialization Nat cfgNoBucket
      (mkInstance "cloud") demoMethod fitArgs "t" "/tmp/x" (by decide)
      (by decide) rfl⟩

theorem remoteDispatch_set_mode (α : Type) (cfg : GlobalConfig)
    (obj : ModelInstance) (bound_args : List (String × PyVal))
    (ts tmp m : String) :
    ((remoteDispatch α cfg { obj with training_mode := m } bound_args ts
        tmp).result = (remoteDispatch α cfg obj bound_args ts tmp).result) ∧
    ((remoteDispatch α cfg { obj with training_mode := m } bound_args ts
        tmp).events = (remoteDispatch α cfg obj bound_args ts tmp).events)
    := by
  have hvt : validTypesList { obj with training_mode := m } =
      validTypesList obj := rfl
  unfold remoteDispatch
  rw [hvt]
  cases firstInvalidArg (validTypesList obj) bound_args with
  | some nt =>
      obtain ⟨n, t⟩ := nt
      exact ⟨rfl, rfl⟩
  | none =>
      cases cfg.staging_bucket with
      | none => exact ⟨rfl, rfl⟩
      | some b => exact ⟨rfl, rfl⟩

/-- Claim C5: any `training_mode` value other than exactly `"local"` takes
the remote-dispatch path: the wrapped fit equals the remote dispatch, and
its observable result and event trace coincide with those of the same
instance in mode `"cloud"`. -/
theorem claim5_only_local_short_circuits (α : Type) (cfg : GlobalConfig)
    (obj : ModelInstance) (method : List (String × PyVal) → Option α)
    (bound_args : List (String × PyVal)) (ts tmp : String)
    (hmode : obj.training_mode ≠ "local") :
    vertex_fit_function_wrapper α cfg obj method bound_args ts tmp =
      remoteDispatch α cfg obj bound_args ts tmp ∧
    (vertex_fit_function_wrapper α cfg obj method bound_args ts
        tmp).result = (vertex_fit_function_wrapper α cfg
        { obj with training_mode := "cloud" } method bound_args ts
        tmp).result ∧
    (vertex_fit_function_wrapper α cfg obj method bound_args ts
        tmp).events = (vertex_fit_function_wrapper α cfg
        { obj with training_mode := "cloud" } method bound_args ts
        tmp).events := by
  have h1 : vertex_fit_function_wrapper α cfg obj method bound_args ts tmp
      = remoteDispatch α cfg obj bound_args ts tmp := by
    rw [vertex_fit_function_wrapper, if_neg hmode]
  have h2 : vertex_fit_function_wrapper α cfg
      { obj with training_mode := "cloud" } method bound_args ts tmp =
      remoteDispatch α cfg { obj with training_mode := "cloud" } bound_args
        ts tmp := by
    rw [vertex_fit_function_wrapper,
      if_neg (show ¬("cloud" = "local") from by decide)]
  rw [h1, h2]
  exact ⟨rfl,
    (remoteDispatch_set_mode α cfg obj bound_args ts tmp "cloud").1.symm,
    (remoteDispatch_set_mode α cfg obj bound_args ts tmp "cloud").2.symm⟩

theorem claim5_witness :
    (mkInstance "weird_mode").training_mode ≠ "local" ∧
    (vertex_fit_function_wrapper Nat cfgWithBucket
        (mkInstance "weird_mode") demoMethod fitArgs "t" "/tmp/x" =
      remoteDispatch Nat cfgWithBucket (mkInstance "weird_mode") fitArgs
        "t" "/tmp/x" ∧
    (vertex_fit_function_wrapper Nat cfgWithBucket
        (mkInstance "weird_mode") demoMethod fitArgs "t" "/tmp/x").result =
      (vertex_fit_function_wrapper Nat cfgWithBucket
        { mkInstance "weird_mode" with training_mode := "cloud" }
        demoMethod fitArgs "t" "/tmp/x").result ∧
    (vertex_fit_function_wrapper Nat cfgWithBucket
        (mkInstance "weird_mode") demoMethod fitArgs "t" "/tmp/x").events =
      (vertex_fit_function_wrapper Nat cfgWithBucket
        { mkInstance "weird_mode" with training_mode := "cloud" }
        demoMethod fitArgs "t" "/tmp/x").events) :=
  ⟨by decide, claim5_only_local_short_circuits Nat cfgWithBucket
    (mkInstance "weird_mode") demoMethod fitArgs "t" "/tmp/x" (by decide)⟩

theorem serializeEventsOf_shape (obj : ModelInstance)
    (bound_args : List (String × PyVal)) (b ts : String) (e : Event)
    (h : e ∈ serializeEventsOf obj bound_args b ts) :
    ∃ f n t, e = Event.serializeCall f n t := by
  rw [serializeEventsOf, List.mem_map] at h
  obtain ⟨p, _, hp⟩ := h
  exact ⟨_, _, _, hp.symm⟩

theorem serializeEventsOf_count_jobCreate (obj : ModelInstance)
    (bound_args : List (String × PyVal)) (b ts : String) (j : TrainingJob) :
    (serializeEventsOf obj bound_args b ts).count (Event.jobCreate j) = 0
    := by
  rw [List.count_eq_zero]
  intro hmem
  obtain ⟨f, n, t, he⟩ := serializeEventsOf_shape obj bound_args b ts _ hmem
  exact Event.noConfusion he

theorem serializeEventsOf_count_jobRun (obj : ModelInstance)
    (bound_args : List (String × PyVal)) (b ts : String) (n : Nat) :
    (serializeEventsOf obj bound_args b ts).count (Event.jobRun n) = 0 := by
  rw [List.count_eq_zero]
  intro hmem
  obtain ⟨f, m, t, he⟩ := serializeEventsOf_shape obj bound_args b ts _ hmem
  exact Event.noConfusion he

/-- Claim C3: in remote mode with valid argument types, a tabular
(DataFrame) argument, and a configured staging bucket, exactly one training
job is constructed — display name `"my_training_job"`, requirements
`["pandas>=1.3"]`, the fixed pytorch-xla container image, script path
ending in `/training_script.py` — it is stored in `_training_job`, and its
`run` is invoked exactly once, with `replica_count=1`. -/
theorem claim3_single_job_submission (α : Type) (cfg : GlobalConfig)
    (obj : ModelInstance) (method : List (String × PyVal) → Option α)
    (bound_args : List (String × PyVal)) (ts tmp b : String)
    (hmode : obj.training_mode ≠ "local")
    (hvalid : ∀ p ∈ bound_args, p.2.pyType ∈ validTypesList obj)
    (hbucket : cfg.staging_bucket = some b)
    (_htab : ∃ p ∈ bound_args, p.2.pyType = PyType.dataFrame) :
    ∃ job : TrainingJob,
      job.display_name = "my_training_job" ∧
      job.requirements = ["pandas>=1.3"] ∧
      job.container_uri =
        "us-docker.pkg.dev/vertex-ai/training/pytorch-xla.1-7:latest" ∧
      (∃ d, job.script_path = d ++ "/training_script.py") ∧
      (vertex_fit_function_wrapper α cfg obj method bound_args ts
          tmp).events.count (Event.jobCreate job) = 1 ∧
      (∀ j, Event.jobCreate j ∈ (vertex_fit_function_wrapper α cfg obj
          method bound_args ts tmp).events → j = job) ∧
      (vertex_fit_function_wrapper α cfg obj method bound_args ts
          tmp).events.count (Event.jobRun 1) = 1 ∧
      (∀ n, Event.jobRun n ∈ (vertex_fit_function_wrapper α cfg obj method
          bound_args ts tmp).events → n = 1) ∧
      (vertex_fit_function_wrapper α cfg obj method bound_args ts
          tmp).final.training_job = some job := by
  have hfia : firstInvalidArg (validTypesList obj) bound_args = none :=
    (firstInvalidArg_eq_none_iff _ _).mpr hvalid
  have hout : vertex_fit_function_wrapper α cfg obj method bound_args ts
      tmp = remoteSuccess α obj bound_args b ts tmp := by
    rw [vertex_fit_function_wrapper, if_neg hmode]
    unfold remoteDispatch
    rw [hfia, hbucket]
  rw [hout]
  refine ⟨generatedJob tmp, rfl, rfl, rfl, ⟨tmp, rfl⟩, ?_, ?_, ?_, ?_, rfl⟩
  · rw [remoteSuccess]
    simp only [List.count_append,
      serializeEventsOf_count_jobCreate obj bound_args b ts
        (generatedJob tmp)]
    simp [List.count_cons]
  · intro j hj
    rw [remoteSuccess] at hj
    simp only [List.mem_append] at hj
    rcases hj with hj | hj
    · obtain ⟨f, n, t, he⟩ := serializeEventsOf_shape obj bound_args b ts
        _ hj
      exact Event.noConfusion he
    · simp only [List.mem_cons] at hj
      rcases hj with hj | hj | hj | hj
      · exact Event.noConfusion hj
      · exact (Event.jobCreate.injEq .. ▸ hj)
      · exact Event.noConfusion hj
      · exact absurd hj (List.not_mem_nil _)
  · rw [remoteSuccess]
    simp only [List.count_append,
      serializeEventsOf_count_jobRun obj bound_args b ts 1]
    simp [List.count_cons]
  · intro n hn
    rw [remoteSuccess] at hn
    simp only [List.mem_append] at hn
    rcases hn with hn | hn
    · obtain ⟨f, m, t, he⟩ := serializeEventsOf_shape obj bound_args b ts
        _ hn
      exact Event.noConfusion he
    · simp only [List.mem_cons] at hn
      rcases hn with hn | hn | hn | hn
      · exact Event.noConfusion hn
      · exact Event.noConfusion hn
      · exact (Event.jobRun.injEq .. ▸ hn)
      · exact absurd hn (List.not_mem_nil _)

theorem claim3_witness :
    ((mkInstance "cloud").training_mode ≠ "local" ∧
      (∀ p ∈ fitArgs, p.2.pyType ∈ validTypesList (mkInstance "cloud")) ∧
      cfgWithBucket.staging_bucket = some "gs://test-staging-bucket" ∧
      ∃ p ∈ fitArgs, p.2.pyType = PyType.dataFrame) ∧
    (∃ job : TrainingJob,
      job.display_name = "my_training_job" ∧
      job.requirements = ["pandas>=1.3"] ∧
      job.container_uri =
        "us-docker.pkg.dev/vertex-ai/training/pytorch-xla.1-7:latest" ∧
      (∃ d, job.script_path = d ++ "/training_script.py") ∧
      (vertex_fit_function_wrapper Nat cfgWithBucket (mkInstance "cloud")
          demoMethod fitArgs "t" "/tmp/x").events.count
        (Event.jobCreate job) = 1 ∧
      (∀ j, Event.jobCreate j ∈ (vertex_fit_function_wrapper Nat
          cfgWithBucket (mkInstance "cloud") demoMethod fitArgs "t"
          "/tmp/x").events → j = job) ∧
      (vertex_fit_function_wrapper Nat cfgWithBucket (mkInstance "cloud")
          demoMethod fitArgs "t" "/tmp/x").events.count (Event.jobRun 1)
        = 1 ∧
      (∀ n, Event.jobRun n ∈ (vertex_fit_function_wrapper Nat cfgWithBucket
          (mkInstance "cloud") demoMethod fitArgs "t" "/tmp/x").events →
        n = 1) ∧
      (vertex_fit_function_wrapper Nat cfgWithBucket (mkInstance "cloud")
          demoMethod fitArgs "t" "/tmp/x").final.training_job = some job) :=
  ⟨⟨by decide, by decide, rfl, by decide⟩,
    claim3_single_job_submission Nat cfgWithBucket (mkInstance "cloud")
      demoMethod fitArgs "t" "/tmp/x" "gs://test-staging-bucket" (by decide)
      (by decide) rfl (by decide)⟩

theorem take_six_ne_gs_of_long (s : String) (h : 6 ≤ s.length) :
    s.take 6 ≠ "gs://" := by
  intro he
  have h5 : (s.take 6).length = 5 := by rw [he]; decide
  rw [String.take_eq] at h5
  have h6 : (s.data.take 6).length = 5 := h5
  rw [List.length_take] at h6
  have h7 : 6 ≤ s.data.length := h
  rw [Nat.min_eq_left h7] at h6
  exact absurd h6 (by decide)

theorem saved_model_path_long (artifact_uri model_type : String) :
    6 ≤ (artifact_uri ++ "/my_" ++ model_type ++ "_model.pth").length := by
  rw [String.length_append, String.length_append, String.length_append]
  have h1 : ("_model.pth" : String).length = 10 := by decide
  omega

/-- Claim C6's failing input, evaluated: for the genuinely `gs://`-prefixed
artifact location `"gs://test-bucket/models"`, `_serialize_local_model`
takes the plain local-save branch — the slice `artifact_uri[0:6]` has six
characters and can never equal the five-character `"gs://"` — so it writes
with a bare `torch.jit.save` to a `gs://`-named local path, performs no
object-storage upload, and leaves the object store untouched, contradicting
its own docstring (serializes the model to GCS) and the spec. -/
theorem claim6_gs_uri_save_performs_no_upload :
    (_serialize_local_model [] [] "/tmp/x" "gs://test-bucket/models"
        demoModule "test").returned =
      "gs://test-bucket/models/my_test_model.pth" ∧
    (_serialize_local_model [] [] "/tmp/x" "gs://test-bucket/models"
        demoModule "test").ioEvents =
      [IoEvent.localWrite "gs://test-bucket/models/my_test_model.pth"] ∧
    (_serialize_local_model [] [] "/tmp/x" "gs://test-bucket/models"
        demoModule "test").gcs = [] ∧
    (∀ bkt blob, IoEvent.gcsUpload bkt blob ∉
      (_serialize_local_model [] [] "/tmp/x" "gs://test-bucket/models"
        demoModule "test").ioEvents) := by
  refine ⟨rfl, rfl, rfl, ?_⟩
  intro bkt blob hmem
  have hev : (_serialize_local_model [] [] "/tmp/x"
      "gs://test-bucket/models" demoModule "test").ioEvents =
      [IoEvent.localWrite "gs://test-bucket/models/my_test_model.pth"] :=
    rfl
  rw [hev] at hmem
  simp at hmem

/-- Claim C7's failing input, evaluated: loading from the genuinely
`gs://`-prefixed location `"gs://test-bucket/model.pth"` with the artifact
absent takes the plain local-load branch (same six-versus-five character
slice), so the raw torch ValueError propagates unwrapped: the result is
never the RuntimeError that wraps the underlying error with the attempted
location, contradicting the function's own docstring and the spec. -/
theorem claim7_gs_uri_load_error_not_wrapped :
    _deserialize_remote_model [] [] "/tmp/x" "gs://test-bucket/model.pth" =
      Except.error (PyError.valueError
        (torchMissingFileMessage "gs://test-bucket/model.pth")) ∧
    ∀ s, _deserialize_remote_model [] [] "/tmp/x"
        "gs://test-bucket/model.pth" ≠
      Except.error (PyError.runtimeError s) := by
  refine ⟨rfl, ?_⟩
  intro s h
  have he : _deserialize_remote_model [] [] "/tmp/x"
      "gs://test-bucket/model.pth" =
      Except.error (PyError.valueError
        (torchMissingFileMessage "gs://test-bucket/model.pth")) := rfl
  rw [he] at h
  simp at h

/-- Claim C8: for every local (non-`gs://`) artifact path, saving a model
with `_serialize_local_model` and then loading from the returned location
with `_deserialize_remote_model` succeeds and yields a module with exactly
the original's input/output behaviour. -/
theorem claim8_local_round_trip (fs : LocalFS) (gcs : GcsStore)
    (tmpS tmpL : String) (m : TorchModule)
    (artifact_uri model_type : String)
    (hlocal : artifact_uri.take 6 ≠ "gs://") :
    ∃ loaded : ScriptModule,
      _deserialize_remote_model
        (_serialize_local_model fs gcs tmpS artifact_uri m model_type).fs
        (_serialize_local_model fs gcs tmpS artifact_uri m model_type).gcs
        tmpL
        (_serialize_local_model fs gcs tmpS artifact_uri m
          model_type).returned = Except.ok loaded ∧
      loaded.forward = m.forward := by
  refine ⟨torch_jit_script m, ?_, rfl⟩
  have hsave : _serialize_local_model fs gcs tmpS artifact_uri m model_type
      = { returned := artifact_uri ++ "/my_" ++ model_type ++ "_model.pth",
          fs := torch_jit_save fs (torch_jit_script m)
            (artifact_uri ++ "/my_" ++ model_type ++ "_model.pth"),
          gcs := gcs,
          ioEvents := [IoEvent.localWrite
            (artifact_uri ++ "/my_" ++ model_type ++ "_model.pth")] } := by
    unfold _serialize_local_model
    rw [if_pos hlocal]
  rw [hsave]
  unfold _deserialize_remote_model
  rw [if_pos (take_six_ne_gs_of_long _
    (saved_model_path_long artifact_uri model_type))]
  unfold torch_jit_load torch_jit_save
  simp [List.lookup]

theorem claim8_witness :
    ("/tmp/artifacts" : String).take 6 ≠ "gs://" ∧
    ∃ loaded : ScriptModule,
      _deserialize_remote_model
        (_serialize_local_model [] [] "/tmp/s" "/tmp/artifacts" demoModule
          "test").fs
        (_serialize_local_model [] [] "/tmp/s" "/tmp/artifacts" demoModule
          "test").gcs
        "/tmp/l"
        (_serialize_local_model [] [] "/tmp/s" "/tmp/artifacts" demoModule
          "test").returned = Except.ok loaded ∧
      loaded.forward = demoModule.forward :=
  ⟨by decide, claim8_local_round_trip [] [] "/tmp/s" "/tmp/l" demoModule
    "/tmp/artifacts" "test" (by decide)⟩

end VertexModel
